import Mathlib

/-!
# Shallow embedding of `SecurityReport.js` (Infection Monkey security report page)

This file embeds the report-assembly logic of
`monkey_island/cc/ui/src/components/report-components/SecurityReport.js`
(the `ReportPageComponent` React class) and proves the specified properties
about it.

Modelling conventions:
* The `this.state` of the component becomes `ComponentState`.
* The `Report` prop is a JS object; the component only tests
  `Object.keys(report).length === 0` ("still loading") and otherwise reads the
  fully populated fields `overview`, `glance`, `recommendations`,
  `cross_segment_issues`.  We embed it as `Option ReportData`: `none` is the
  empty placeholder object `{}` (zero enumerable top-level keys), `some r` a
  populated report (four top-level keys).
* JSX output is embedded as data: each `generate...Section` method becomes a
  function into a render structure holding exactly the data-bearing parts of
  the markup (conditionals, lists, badges); static text and styling carry no
  information and are not represented beyond the constructor they live in.
* JS numbers are embedded as `JsNum := Option ℚ`: `some q` is a finite value
  (all arithmetic in this file is exact on the rationals), `none` is a
  non-finite value (`NaN` or `±Infinity`), which in JS arises exactly from the
  division `x / 0` performed here.
* Helper functions imported from `ServerUtils.js`, `TunnelIssue.js` and
  `CrossSegmentIssue.js` are not part of the provided sources; they are
  modelled from the spec, each with a doc comment saying so.
-/

namespace SecurityReport

/-- A row of a credentials table (stolen or configured).  The spec calls these
"opaque rows displayed verbatim", so the payload is uninterpreted. -/
structure CredentialRow where
  raw : String
  deriving DecidableEq, Repr

/-- A row of the scanned-machines table (`glance.scanned`); displayed by the
`ScannedServers` child component, opaque to the logic embedded here. -/
structure ScannedRow where
  raw : String
  deriving DecidableEq, Repr

/-- A cross-segment (segmentation) finding from `report.cross_segment_issues`;
opaque payload rendered by `crossSegmentIssueReport`. -/
structure CrossSegmentIssue where
  raw : String
  deriving DecidableEq, Repr

/-- An inventory agent record.  Per the spec: "Agent references a Machine
(non-owning lookup relation) and carries a flag indicating manual vs automated
start". -/
structure Agent where
  machine_id : Nat
  manual : Bool
  deriving DecidableEq, Repr

/-- An inventory machine record.  Per the spec: "Machine carries hostname and a
list of IP addresses". -/
structure Machine where
  id : Nat
  hostname : String
  ips : List String
  deriving DecidableEq, Repr

/-- One finding for one machine (`recommendations.issues` values).  The
optional fields model JS properties that may be absent or `undefined`:
`none` is absent/`undefined`, `some v` is a present defined value.
`password_restored = some false` is the only state in which the JS strict
comparison `issue.password_restored === false` holds. -/
structure Issue where
  type : String
  description : Option String
  remediation_suggestion : Option String
  password_restored : Option Bool
  deriving DecidableEq, Repr

/-- `report.overview`: start time, optional duration, enabled exploiter names,
configured scan IPs, local-scan flag. -/
structure Overview where
  monkey_start_time : String
  monkey_duration : Option String
  config_exploits : List String
  config_ips : List String
  config_scan : Bool
  deriving DecidableEq, Repr

/-- `report.glance`: breached-host count and the scanned-machine rows. -/
structure Glance where
  exploited_cnt : Nat
  scanned : List ScannedRow
  deriving DecidableEq, Repr

/-- `report.recommendations`: the machine-id-keyed mapping of issue lists,
embedded as an association list in key order (`Object.keys` order). -/
structure Recommendations where
  issues : List (Nat × List Issue)
  deriving DecidableEq, Repr

/-- The four top-level fields of a populated security report. -/
structure ReportData where
  overview : Overview
  glance : Glance
  recommendations : Recommendations
  cross_segment_issues : List CrossSegmentIssue
  deriving DecidableEq, Repr

/-- The `report` prop/state slot: `none` is the empty placeholder object `{}`,
`some r` a populated report object. -/
abbrev Report := Option ReportData

/-- The enumerable top-level keys of the report object, as `Object.keys` would
list them: none for the `{}` placeholder, the four report fields otherwise. -/
def reportObjectKeys : Report → List String
  | none => []
  | some _ => ["overview", "glance", "recommendations", "cross_segment_issues"]

/-- `this.state` of `ReportPageComponent`. -/
structure ComponentState where
  report : Report
  stolenCredentials : List CredentialRow
  configuredCredentials : List CredentialRow
  agents : List Agent
  machines : List Machine
  deriving DecidableEq, Repr

/-- The initial state set by the constructor: the report prop, and the four fetched
slots empty. -/
def initialState (report : Report) : ComponentState :=
  { report := report
    stolenCredentials := []
    configuredCredentials := []
    agents := []
    machines := [] }

/-! ## JS number model -/

/-- A JS IEEE-754 number as it occurs in this component: `some q` a finite
value (every operation performed here is exact on small integers and their
quotients), `none` a non-finite value (`NaN` or `±Infinity`). -/
abbrev JsNum := Option ℚ

/-- JS division: finite quotient when the divisor is nonzero; division by zero
yields `NaN` (for `0 / 0`) or `±Infinity`, both non-finite, modelled `none`. -/
def jsDiv (a b : ℚ) : JsNum :=
  if b = 0 then none else some (a / b)

/-! ## Helpers modelled from the spec (not under the provided sources) -/

/-- Modelled from the spec: `ServerUtils.getManuallyStartedAgents` is not in
the provided sources; the spec says the overview uses the "agents flagged
manually-started". -/
def getManuallyStartedAgents (agents : List Agent) : List Agent :=
  agents.filter (fun a => a.manual)

/-- Modelled from the spec: `ServerUtils.getMachineByAgent` is not in the
provided sources; the spec calls the Agent→Machine reference a "non-owning
lookup relation", so we look the referenced machine up by id. -/
def getMachineByAgent (agent : Agent) (machines : List Machine) : Option Machine :=
  machines.find? (fun m => m.id == agent.machine_id)

/-- Modelled from the spec: `ServerUtils.getMachineByID` is not in the
provided sources; lookup of a machine record by id. -/
def getMachineByID (machineId : Nat) (machines : List Machine) : Option Machine :=
  machines.find? (fun m => m.id == machineId)

/-- Modelled from the spec: `ServerUtils.getMachineHostname` is not in the
provided sources; the spec says "Machine carries hostname", so we read that
field, with the empty string for an unresolved machine. -/
def getMachineHostname : Option Machine → String
  | some m => m.hostname
  | none => ""

/-- Modelled from the spec: `ServerUtils.getMachineIPs` is not in the provided
sources; the spec says "Machine carries ... a list of IP addresses". -/
def getMachineIPs : Option Machine → List String
  | some m => m.ips
  | none => []

/-- A tunnel record of the "precomputed tunnel list", keyed by the machine
identifier it is cross-referenced against. -/
structure Tunnel where
  machineId : Nat
  deriving DecidableEq, Repr

/-- Modelled from the spec: `getAllTunnels` (`TunnelIssue.js`) is not in the
provided sources.  The spec says only that the tunnel list is "built once per
render from current agents+machines" by "agent/machine cross-reference"; we
model one candidate record per agent whose machine resolves.  No claim depends
on the entries themselves. -/
def getAllTunnels (agents : List Agent) (machines : List Machine) : List Tunnel :=
  agents.filterMap (fun a => (getMachineByAgent a machines).map (fun m => ⟨m.id⟩))

/-- The rendered tunnel-issue entry for one machine. -/
structure TunnelRender where
  machineId : Nat
  deriving DecidableEq, Repr

/-- Modelled from the spec: `tunnelIssueReportByMachine` (`TunnelIssue.js`) is
not in the provided sources.  Per the spec there is "at most one synthesized
tunnel issue entry obtained by cross-referencing a precomputed tunnel list
against that machine identifier". -/
def tunnelIssueReportByMachine (machineId : Nat) (tunnels : List Tunnel) :
    Option TunnelRender :=
  (tunnels.find? (fun t => t.machineId == machineId)).map (fun t => ⟨t.machineId⟩)

/-- The rendered entry for one cross-segment issue. -/
structure CrossSegmentRender where
  issue : CrossSegmentIssue
  deriving DecidableEq, Repr

/-- Modelled from the spec: `crossSegmentIssueReport` (`CrossSegmentIssue.js`)
is not in the provided sources; per the spec the segmentation section contains
one rendered entry per cross-segment issue. -/
def crossSegmentIssueReport (issue : CrossSegmentIssue) : CrossSegmentRender :=
  ⟨issue⟩

/-! ## `[...new Set(xs)]` — first-seen-order deduplication -/

/-- The loop of `[...new Set(xs)]`: a JS `Set` keeps the first insertion of
each value and iterates in insertion order.  `seen` holds the values already
inserted. -/
def jsSetDedupAux (seen : List String) : List String → List String
  | [] => []
  | x :: xs =>
    if x ∈ seen then jsSetDedupAux seen xs
    else x :: jsSetDedupAux (x :: seen) xs

/-- `[...new Set(xs)]`: deduplicate keeping the first occurrence of each value, in
first-seen order. -/
def jsSetDedup (xs : List String) : List String :=
  jsSetDedupAux [] xs

/-! ## Render model

Each `generate...Section` method of `ReportPageComponent` becomes a function
into a structure holding the data-bearing parts of the JSX it returns. -/

/-- `stillLoadingDataFromServer()`:
`Object.keys(this.state.report).length === 0`. -/
def stillLoadingDataFromServer (report : Report) : Bool :=
  (reportObjectKeys report).length == 0

/-- The remediation markup of one rendered issue (`generateIssue`):
the fixed placeholder markdown (the string literal `No remediation available`), the
`remediation_suggestion` markdown, or — for the Zerologon special case — the
fixed warning passage (`zerologonOverviewWithFailedPassResetWarning()`)
followed by the normal remediation it wraps. -/
inductive Remediation where
  | placeholder
  | markdown (s : String)
  | zerologonWarning (normal : Remediation)
  deriving DecidableEq, Repr

/-- The description markup of one rendered issue: the empty string default or
the `description` markdown. -/
inductive Description where
  | empty
  | markdown (s : String)
  deriving DecidableEq, Repr

/-- One rendered issue `<li>`: its remediation block and its collapsible
description well. -/
structure IssueRender where
  remediation : Remediation
  description : Description
  deriving DecidableEq, Repr

/-- `generateIssue(issue)`: start from the placeholder remediation and empty
description; overwrite remediation with the `remediation_suggestion` markdown
when that property is present and defined; overwrite description likewise;
then, if the issue type is the string `ZerologonExploiter` and `password_restored` is
strictly `false`, wrap the current remediation in the failed-password-reset
warning passage. -/
def generateIssue (issue : Issue) : IssueRender :=
  let remediation := Remediation.placeholder
  let remediation :=
    match issue.remediation_suggestion with
    | some s => Remediation.markdown s
    | none => remediation
  let description := Description.empty
  let description :=
    match issue.description with
    | some s => Description.markdown s
    | none => description
  let remediation :=
    if issue.type = "ZerologonExploiter" ∧ issue.password_restored = some false then
      Remediation.zerologonWarning remediation
    else remediation
  { remediation := remediation, description := description }

/-- The exploitation-methods block of the overview: either the
"No exploiters were enabled." paragraph or the `<li>` list with one entry per
configured exploit. -/
inductive ExploitsBlock where
  | noExploitersText
  | exploitsList (entries : List String)
  deriving DecidableEq, Repr

/-- The data-bearing parts of the JSX returned by `generateReportOverviewSection()`. -/
structure OverviewRender where
  issuesFound : Bool
  showCredsTip : Bool
  monkeyStartTime : String
  durationBadge : Option String
  manualHostnames : List String
  stolenCreds : List CredentialRow
  configuredCreds : List CredentialRow
  exploits : ExploitsBlock
  scannedIPsBlock : Option (List String)
  localScanNote : Bool
  deriving DecidableEq, Repr

/-- The hostnames of the manually started agents, before deduplication:
`getManuallyStartedAgents(this.state.agents).map((agent) =>
  getMachineHostname(getMachineByAgent(agent, this.state.machines)))`. -/
def manualMonkeyHostnames (agents : List Agent) (machines : List Machine) :
    List String :=
  (getManuallyStartedAgents agents).map
    (fun agent => getMachineHostname (getMachineByAgent agent machines))

/-- `getMonkeyDuration()`: a duration badge only when
`overview.monkey_duration` is truthy (present and not the empty string). -/
def getMonkeyDuration (o : Overview) : Option String :=
  match o.monkey_duration with
  | some d => if d = "" then none else some d
  | none => none

/-- `generateReportOverviewSection()`: glance-driven banner and tip, start
time and duration, the deduplicated manual-start hostname list
(`[...new Set(manualMonkeyHostnames)]`), both credentials tables, the
exploitation-methods block, the scanned-IPs block (only when `config_ips` is
non-empty), and the local-scan note (only when `config_scan` is falsy). -/
def generateReportOverviewSection (r : ReportData) (agents : List Agent)
    (machines : List Machine) (stolen configured : List CredentialRow) :
    OverviewRender :=
  { issuesFound := decide (0 < r.glance.exploited_cnt)
    showCredsTip := !decide (0 < r.glance.exploited_cnt)
    monkeyStartTime := r.overview.monkey_start_time
    durationBadge := getMonkeyDuration r.overview
    manualHostnames := jsSetDedup (manualMonkeyHostnames agents machines)
    stolenCreds := stolen
    configuredCreds := configured
    exploits :=
      if 0 < r.overview.config_exploits.length then
        ExploitsBlock.exploitsList r.overview.config_exploits
      else ExploitsBlock.noExploitersText
    scannedIPsBlock :=
      if 0 < r.overview.config_ips.length then some r.overview.config_ips
      else none
    localScanNote := !r.overview.config_scan }

/-- The Segmentation Issues section: the rendered entry list. -/
structure SegmentationRender where
  entries : List CrossSegmentRender
  deriving DecidableEq, Repr

/-- `generateSegmentationSection()`: the empty string (no section, `none`)
when `cross_segment_issues` is empty; otherwise the section with
`cross_segment_issues.map(x => crossSegmentIssueReport(x))`. -/
def generateSegmentationSection (r : ReportData) : Option SegmentationRender :=
  if r.cross_segment_issues.length = 0 then none
  else some ⟨r.cross_segment_issues.map crossSegmentIssueReport⟩

/-- One machine group of the recommendations section: the machine heading
(hostname, IP list) and its ordered issue entries, followed by the optional
tunnel-issue entry. -/
structure MachineIssuesRender where
  hostname : String
  ips : List String
  issues : List IssueRender
  tunnelEntry : Option TunnelRender
  deriving DecidableEq, Repr

/-- `getTunnelIssue(machineId)`: the tunnel `<li>` when
`tunnelIssueReportByMachine` finds one, else nothing. -/
def getTunnelIssue (machineId : Nat) (tunnels : List Tunnel) :
    Option TunnelRender :=
  tunnelIssueReportByMachine machineId tunnels

/-- `generateIssues(issues)`: one group per machine-id key, resolving the
machine record for the heading and rendering each issue in list order. -/
def generateIssues (issues : List (Nat × List Issue)) (machines : List Machine)
    (tunnels : List Tunnel) : List MachineIssuesRender :=
  issues.map (fun entry =>
    let machine := getMachineByID entry.1 machines
    { hostname := getMachineHostname machine
      ips := getMachineIPs machine
      issues := entry.2.map generateIssue
      tunnelEntry := getTunnelIssue entry.1 tunnels })

/-- The Machine-related Recommendations section: whether the title is shown
(only when the issues mapping has keys) and the machine groups. -/
structure RecommendationsRender where
  showTitle : Bool
  machineGroups : List MachineIssuesRender
  deriving DecidableEq, Repr

/-- `generateReportRecommendationsSection()`. -/
def generateReportRecommendationsSection (r : ReportData)
    (machines : List Machine) (tunnels : List Tunnel) : RecommendationsRender :=
  { showTitle := r.recommendations.issues.length != 0
    machineGroups := generateIssues r.recommendations.issues machines tunnels }

/-- The data-bearing parts of the JSX returned by `generateReportGlanceSection()`. -/
structure GlanceRender where
  scannedCount : Nat
  exploitedCount : Nat
  percent : JsNum
  scannedTable : List ScannedRow
  stolenTable : List CredentialRow
  deriving DecidableEq, Repr

/-- `generateReportGlanceSection()`:
`exploitPercentage = (100 * glance.exploited_cnt) / glance.scanned.length`
with no guard, plus the counts and the two tables. -/
def generateReportGlanceSection (r : ReportData)
    (stolen : List CredentialRow) : GlanceRender :=
  { scannedCount := r.glance.scanned.length
    exploitedCount := r.glance.exploited_cnt
    percent := jsDiv (100 * (r.glance.exploited_cnt : ℚ))
      ((r.glance.scanned.length : ℚ))
    scannedTable := r.glance.scanned
    stolenTable := stolen }

/-- The report content area (the `content` variable of `render()`): either
the loading indicator alone, or the fixed-order composition Overview,
Segmentation (optional), Recommendations, Glance; the Footer is static markup
always present in the second form. -/
inductive ReportContent where
  | loader
  | sections (overview : OverviewRender) (segmentation : Option SegmentationRender)
      (recommendations : RecommendationsRender) (glance : GlanceRender)
  deriving DecidableEq, Repr

/-- The content decision of `render()`: compute `this.allTunnels` from current
agents and machines, then render the loader while
`stillLoadingDataFromServer()`, else the five sections in fixed order.  (The
inner `none` branch is dead: the `{}` placeholder already has zero keys.) -/
def renderContent (st : ComponentState) : ReportContent :=
  let allTunnels := getAllTunnels st.agents st.machines
  if stillLoadingDataFromServer st.report then ReportContent.loader
  else
    match st.report with
    | none => ReportContent.loader
    | some r =>
      ReportContent.sections
        (generateReportOverviewSection r st.agents st.machines
          st.stolenCredentials st.configuredCredentials)
        (generateSegmentationSection r)
        (generateReportRecommendationsSection r st.machines allTunnels)
        (generateReportGlanceSection r st.stolenCredentials)

/-! ## The four mount-time fetches -/

/-- Which of the four fetches an event belongs to: the two credential fetches
of `getCredentialsFromServer` and the two inventory fetches of
`componentDidMount`. -/
inductive FetchKind where
  | stolen
  | configured
  | agents
  | machines
  deriving DecidableEq, Repr

/-- A fetch completion: the `.then` callback of one of the four fetches, with
its response payload. -/
inductive FetchEvent where
  | stolenDone (creds : List CredentialRow)
  | configuredDone (creds : List CredentialRow)
  | agentsDone (ags : List Agent)
  | machinesDone (ms : List Machine)
  deriving DecidableEq, Repr

/-- The fetch a completion event belongs to. -/
def FetchEvent.kind : FetchEvent → FetchKind
  | .stolenDone _ => .stolen
  | .configuredDone _ => .configured
  | .agentsDone _ => .agents
  | .machinesDone _ => .machines

/-- The `setState` call of one completion callback: the React `setState` merges
the given partial object into the state, so each callback writes exactly its
own slot. -/
def applyFetchCompletion (st : ComponentState) : FetchEvent → ComponentState
  | .stolenDone c => { st with stolenCredentials := c }
  | .configuredDone c => { st with configuredCredentials := c }
  | .agentsDone a => { st with agents := a }
  | .machinesDone m => { st with machines := m }

/-- The outcome of one of the four fetch promises: resolution with a payload,
or rejection. -/
inductive FetchOutcome where
  | resolved (e : FetchEvent)
  | rejected (k : FetchKind)
  deriving DecidableEq, Repr

/-- How the component consumes a fetch outcome.  The `.then` chains in
`getCredentialsFromServer` and `componentDidMount` install no rejection
handler, so a rejection runs no `setState` (the state is returned unchanged)
and escapes to the unhandled-rejection path of the host runtime (the `Bool` is
`true` exactly when an uncaught rejection escapes). -/
def processFetchOutcome (st : ComponentState) :
    FetchOutcome → ComponentState × Bool
  | .resolved e => (applyFetchCompletion st e, false)
  | .rejected _ => (st, true)

/-! ## Lemmas about `[...new Set(xs)]` -/

/-- Membership in the output of the `Set` loop: the values of the input not already
inserted. -/
theorem mem_jsSetDedupAux (l : List String) :
    ∀ (seen : List String) (x : String),
      x ∈ jsSetDedupAux seen l ↔ x ∈ l ∧ x ∉ seen := by
  induction l with
  | nil => intro seen x; simp [jsSetDedupAux]
  | cons c t ih =>
    intro seen x
    by_cases hc : c ∈ seen
    · simp only [jsSetDedupAux, if_pos hc, ih, List.mem_cons]
      by_cases hxc : x = c
      · subst hxc; tauto
      · tauto
    · simp only [jsSetDedupAux, if_neg hc, List.mem_cons, ih, not_or]
      by_cases hxc : x = c
      · subst hxc; tauto
      · tauto

/-- The output of the `Set` loop has no duplicates. -/
theorem nodup_jsSetDedupAux (l : List String) :
    ∀ seen : List String, (jsSetDedupAux seen l).Nodup := by
  induction l with
  | nil => intro seen; simp [jsSetDedupAux]
  | cons c t ih =>
    intro seen
    by_cases hc : c ∈ seen
    · simpa only [jsSetDedupAux, if_pos hc] using ih seen
    · simp only [jsSetDedupAux, if_neg hc]
      refine List.nodup_cons.mpr ⟨?_, ih (c :: seen)⟩
      intro hmem
      exact ((mem_jsSetDedupAux t (c :: seen) c).mp hmem).2
        (List.mem_cons_self c seen)

/-- The output of the `Set` loop is ordered by first occurrence in the input: any
earlier output value first occurs in the input strictly before any later one. -/
theorem pairwise_indexOf_jsSetDedupAux (l : List String) :
    ∀ seen : List String,
      (jsSetDedupAux seen l).Pairwise
        (fun a b => l.indexOf a < l.indexOf b) := by
  induction l with
  | nil => intro seen; simp [jsSetDedupAux]
  | cons c t ih =>
    intro seen
    by_cases hc : c ∈ seen
    · simp only [jsSetDedupAux, if_pos hc]
      refine (ih seen).imp_of_mem ?_
      intro a b ha hb hab
      have ha2 := ((mem_jsSetDedupAux t seen a).mp ha).2
      have hb2 := ((mem_jsSetDedupAux t seen b).mp hb).2
      have hac : c ≠ a := fun h => ha2 (h ▸ hc)
      have hbc : c ≠ b := fun h => hb2 (h ▸ hc)
      rw [List.indexOf_cons_ne _ hac, List.indexOf_cons_ne _ hbc]
      omega
    · simp only [jsSetDedupAux, if_neg hc]
      refine List.pairwise_cons.mpr ⟨?_, ?_⟩
      · intro b hb
        have hb2 := ((mem_jsSetDedupAux t (c :: seen) b).mp hb).2
        have hbc : c ≠ b := fun h => hb2 (h ▸ List.mem_cons_self c seen)
        rw [List.indexOf_cons_self, List.indexOf_cons_ne _ hbc]
        omega
      · refine (ih (c :: seen)).imp_of_mem ?_
        intro a b ha hb hab
        have ha2 := ((mem_jsSetDedupAux t (c :: seen) a).mp ha).2
        have hb2 := ((mem_jsSetDedupAux t (c :: seen) b).mp hb).2
        have hac : c ≠ a := fun h => ha2 (h ▸ List.mem_cons_self c seen)
        have hbc : c ≠ b := fun h => hb2 (h ▸ List.mem_cons_self c seen)
        rw [List.indexOf_cons_ne _ hac, List.indexOf_cons_ne _ hbc]
        omega

/-- Membership in `[...new Set(xs)]` is membership in `xs`. -/
theorem mem_jsSetDedup (l : List String) (x : String) :
    x ∈ jsSetDedup l ↔ x ∈ l := by
  simp [jsSetDedup, mem_jsSetDedupAux]

/-- `[...new Set(xs)]` has no duplicates. -/
theorem nodup_jsSetDedup (l : List String) : (jsSetDedup l).Nodup :=
  nodup_jsSetDedupAux l []

/-- `[...new Set(xs)]` lists values in first-seen order. -/
theorem pairwise_indexOf_jsSetDedup (l : List String) :
    (jsSetDedup l).Pairwise (fun a b => l.indexOf a < l.indexOf b) :=
  pairwise_indexOf_jsSetDedupAux l []

/-! ## Shared evaluation lemmas -/

/-- The remediation computed by `generateIssue`: the suggestion markdown or
the placeholder, wrapped in the Zerologon warning exactly in the special
case. -/
theorem generateIssue_remediation (issue : Issue) :
    (generateIssue issue).remediation =
      if issue.type = "ZerologonExploiter" ∧
          issue.password_restored = some false then
        Remediation.zerologonWarning
          (match issue.remediation_suggestion with
            | some s => Remediation.markdown s
            | none => Remediation.placeholder)
      else
        match issue.remediation_suggestion with
        | some s => Remediation.markdown s
        | none => Remediation.placeholder := rfl

/-- The description computed by `generateIssue`: the description markdown, or
the empty default. -/
theorem generateIssue_description (issue : Issue) :
    (generateIssue issue).description =
      match issue.description with
      | some s => Description.markdown s
      | none => Description.empty := rfl

/-- With a populated report in state, `render()` produces the four-section
content (plus the static footer) in fixed order. -/
theorem renderContent_loaded (st : ComponentState) (r : ReportData)
    (h : st.report = some r) :
    renderContent st =
      ReportContent.sections
        (generateReportOverviewSection r st.agents st.machines
          st.stolenCredentials st.configuredCredentials)
        (generateSegmentationSection r)
        (generateReportRecommendationsSection r st.machines
          (getAllTunnels st.agents st.machines))
        (generateReportGlanceSection r st.stolenCredentials) := by
  simp [renderContent, stillLoadingDataFromServer, reportObjectKeys, h]

/-- With the `{}` placeholder in state, `render()` produces the loader. -/
theorem renderContent_none (st : ComponentState) (h : st.report = none) :
    renderContent st = ReportContent.loader := by
  simp [renderContent, stillLoadingDataFromServer, reportObjectKeys, h]

/-! ## Concrete sample inputs (used by the witness theorems) -/

/-- A populated report with no scanned machines, no configured exploiters, no
scan IPs and no cross-segment issues. -/
def sampleReportA : ReportData :=
  { overview :=
      { monkey_start_time := "2022-01-01 10:00:00"
        monkey_duration := none
        config_exploits := []
        config_ips := []
        config_scan := true }
    glance := { exploited_cnt := 1, scanned := [] }
    recommendations := { issues := [] }
    cross_segment_issues := [] }

/-- A populated report with scanned machines, configured exploiters and one
cross-segment issue. -/
def sampleReportB : ReportData :=
  { overview :=
      { monkey_start_time := "2022-01-01 10:00:00"
        monkey_duration := some "0:02:00"
        config_exploits := ["SMBExploiter", "SSHExploiter"]
        config_ips := ["10.0.0.0/24"]
        config_scan := true }
    glance := { exploited_cnt := 1, scanned := [⟨"10.0.0.5"⟩, ⟨"10.0.0.6"⟩] }
    recommendations := { issues := [] }
    cross_segment_issues := [⟨"10.0.0.5 reached 192.168.0.1"⟩] }

/-- A Zerologon issue whose password restoration failed. -/
def zerologonIssueA : Issue :=
  { type := "ZerologonExploiter"
    description := none
    remediation_suggestion := some "Patch the domain controller."
    password_restored := some false }

/-- An ordinary issue with neither description nor remediation suggestion. -/
def plainIssueA : Issue :=
  { type := "SMBExploiter"
    description := none
    remediation_suggestion := none
    password_restored := none }

/-- A manually started agent on machine 1. -/
def agentA : Agent := { machine_id := 1, manual := true }

/-- A second manually started agent on machine 1. -/
def agentB : Agent := { machine_id := 1, manual := true }

/-- Machine 1. -/
def machineA : Machine :=
  { id := 1, hostname := "host-a", ips := ["10.0.0.5"] }

/-! ## Claims -/

/-- C1: for every Report value with zero enumerable top-level keys, the render
content is the loading indicator alone — the `ReportContent.loader`
constructor, which carries no Overview, Segmentation, Recommendations, Glance
or Footer section and no other content. -/
theorem c1_empty_report_renders_only_loader (st : ComponentState)
    (h : (reportObjectKeys st.report).length = 0) :
    renderContent st = ReportContent.loader := by
  have hl : stillLoadingDataFromServer st.report = true := by
    simp [stillLoadingDataFromServer, h]
  simp [renderContent, hl]

/-- Witness for C1 at the empty placeholder report `{}`. -/
theorem c1_empty_report_renders_only_loader_witness :
    (reportObjectKeys (initialState none).report).length = 0 ∧
      renderContent (initialState none) = ReportContent.loader :=
  ⟨rfl, c1_empty_report_renders_only_loader (initialState none) rfl⟩

/-- C2: for every non-empty Report, the glance section shows the exploit
percentage `(100 * glance.exploited_cnt) / glance.scanned.length`, computed by
the unguarded JS division: a finite exact quotient when the scanned list is
non-empty, a non-finite value (`none`) when it is empty. -/
theorem c2_glance_exploit_percentage (st : ComponentState) (r : ReportData)
    (h : st.report = some r) :
    (∃ o s rec,
      renderContent st =
        ReportContent.sections o s rec
          (generateReportGlanceSection r st.stolenCredentials)) ∧
    (generateReportGlanceSection r st.stolenCredentials).percent =
      jsDiv (100 * (r.glance.exploited_cnt : ℚ))
        ((r.glance.scanned.length : ℚ)) ∧
    (r.glance.scanned = [] →
      (generateReportGlanceSection r st.stolenCredentials).percent = none) ∧
    (r.glance.scanned ≠ [] →
      (generateReportGlanceSection r st.stolenCredentials).percent =
        some ((100 * (r.glance.exploited_cnt : ℚ)) /
          (r.glance.scanned.length : ℚ))) := by
  refine ⟨⟨_, _, _, renderContent_loaded st r h⟩, rfl, ?_, ?_⟩
  · intro hsc
    simp [generateReportGlanceSection, jsDiv, hsc]
  · intro hne
    have hq : ((r.glance.scanned.length : ℚ)) ≠ 0 := by
      intro h0
      exact hne (List.length_eq_zero.mp (Nat.cast_eq_zero.mp h0))
    simp [generateReportGlanceSection, jsDiv, hq]

/-- Witness for C2: in `sampleReportA` nothing was scanned, and the division
produces the non-finite value. -/
theorem c2_glance_exploit_percentage_witness :
    (generateReportGlanceSection sampleReportA
      (initialState (some sampleReportA)).stolenCredentials).percent = none :=
  (c2_glance_exploit_percentage (initialState (some sampleReportA))
    sampleReportA rfl).2.2.1 rfl

/-- C3: an Issue of type `ZerologonExploiter` whose `password_restored` is
strictly `false` renders the fixed warning passage wrapping (immediately
preceding) the normal remediation block — the suggestion markdown when
present, otherwise the placeholder — both present simultaneously; every other
combination of type and `password_restored` renders no warning passage. -/
theorem c3_zerologon_warning_remediation (issue : Issue) :
    (issue.type = "ZerologonExploiter" ∧
        issue.password_restored = some false →
      (generateIssue issue).remediation =
        Remediation.zerologonWarning
          (match issue.remediation_suggestion with
            | some s => Remediation.markdown s
            | none => Remediation.placeholder)) ∧
    (¬ (issue.type = "ZerologonExploiter" ∧
        issue.password_restored = some false) →
      ∀ rem, (generateIssue issue).remediation ≠
        Remediation.zerologonWarning rem) := by
  constructor
  · intro hz
    rw [generateIssue_remediation, if_pos hz]
  · intro hz rem
    rw [generateIssue_remediation, if_neg hz]
    cases issue.remediation_suggestion <;> simp

/-- Witness for C3: the warning wraps the suggestion markdown for a failed
Zerologon password reset, and an ordinary issue renders no warning. -/
theorem c3_zerologon_warning_remediation_witness :
    (generateIssue zerologonIssueA).remediation =
      Remediation.zerologonWarning
        (Remediation.markdown "Patch the domain controller.") ∧
    (generateIssue plainIssueA).remediation ≠
      Remediation.zerologonWarning Remediation.placeholder := by
  constructor
  · exact (c3_zerologon_warning_remediation zerologonIssueA).1 ⟨rfl, rfl⟩
  · exact (c3_zerologon_warning_remediation plainIssueA).2
      (by simp [plainIssueA]) Remediation.placeholder

/-- C4: for every non-empty Report, the Segmentation section is entirely
absent (`none`) when `cross_segment_issues` is empty, and otherwise a
Segmentation Issues section is rendered with one entry per cross-segment
issue. -/
theorem c4_segmentation_section (st : ComponentState) (r : ReportData)
    (h : st.report = some r) :
    (r.cross_segment_issues = [] →
      ∃ o rec g, renderContent st = ReportContent.sections o none rec g) ∧
    (r.cross_segment_issues ≠ [] →
      ∃ o seg rec g,
        renderContent st = ReportContent.sections o (some seg) rec g ∧
        seg.entries.length = r.cross_segment_issues.length ∧
        seg.entries = r.cross_segment_issues.map crossSegmentIssueReport) := by
  have hrc := renderContent_loaded st r h
  constructor
  · intro he
    have hseg : generateSegmentationSection r = none := by
      simp [generateSegmentationSection, he]
    exact ⟨_, _, _, by rw [hrc, hseg]⟩
  · intro hne
    have hlen : ¬ r.cross_segment_issues.length = 0 := by
      simpa [List.length_eq_zero] using hne
    have hseg : generateSegmentationSection r =
        some ⟨r.cross_segment_issues.map crossSegmentIssueReport⟩ := by
      simp [generateSegmentationSection, hlen]
    exact ⟨_, ⟨r.cross_segment_issues.map crossSegmentIssueReport⟩, _, _,
      by rw [hrc, hseg], by simp, rfl⟩

/-- Witness for C4 at `sampleReportB`, which has one cross-segment issue. -/
theorem c4_segmentation_section_witness :
    ∃ o seg rec g,
      renderContent (initialState (some sampleReportB)) =
        ReportContent.sections o (some seg) rec g ∧
      seg.entries.length = sampleReportB.cross_segment_issues.length ∧
      seg.entries = sampleReportB.cross_segment_issues.map
        crossSegmentIssueReport :=
  (c4_segmentation_section (initialState (some sampleReportB)) sampleReportB
    rfl).2 (by simp [sampleReportB])

/-- C5: the manual-start hostname list rendered in the overview is
`[...new Set(...)]` of the manually-started-agent hostnames: same members, no
duplicates, in first-seen order (earlier entries first occur strictly earlier
in the un-deduplicated hostname list); in particular two manually started
agents on the same machine produce exactly one entry. -/
theorem c5_manual_hostnames_dedup :
    (∀ (r : ReportData) (agents : List Agent) (machines : List Machine)
        (stolen configured : List CredentialRow),
      (generateReportOverviewSection r agents machines stolen
          configured).manualHostnames =
        jsSetDedup (manualMonkeyHostnames agents machines) ∧
      (∀ x, x ∈ (generateReportOverviewSection r agents machines stolen
          configured).manualHostnames ↔
        x ∈ manualMonkeyHostnames agents machines) ∧
      (generateReportOverviewSection r agents machines stolen
          configured).manualHostnames.Nodup ∧
      (generateReportOverviewSection r agents machines stolen
          configured).manualHostnames.Pairwise
        (fun a b => (manualMonkeyHostnames agents machines).indexOf a <
          (manualMonkeyHostnames agents machines).indexOf b)) ∧
    (∀ (a1 a2 : Agent) (m : Machine) (r : ReportData)
        (stolen configured : List CredentialRow),
      a1.manual = true → a2.manual = true →
      a1.machine_id = m.id → a2.machine_id = m.id →
      (generateReportOverviewSection r [a1, a2] [m] stolen
          configured).manualHostnames = [m.hostname]) := by
  constructor
  · intro r agents machines stolen configured
    refine ⟨rfl, ?_, ?_, ?_⟩
    · intro x
      exact mem_jsSetDedup (manualMonkeyHostnames agents machines) x
    · exact nodup_jsSetDedup (manualMonkeyHostnames agents machines)
    · exact pairwise_indexOf_jsSetDedup (manualMonkeyHostnames agents machines)
  · intro a1 a2 m r stolen configured h1 h2 hm1 hm2
    simp [generateReportOverviewSection, manualMonkeyHostnames,
      getManuallyStartedAgents, getMachineByAgent, getMachineHostname,
      jsSetDedup, jsSetDedupAux, h1, h2, hm1, hm2, List.find?]

/-- Witness for C5: two manually started agents on machine 1 yield the single
entry `host-a`. -/
theorem c5_manual_hostnames_dedup_witness :
    (generateReportOverviewSection sampleReportA [agentA, agentB] [machineA]
      [] []).manualHostnames = [machineA.hostname] :=
  c5_manual_hostnames_dedup.2 agentA agentB machineA sampleReportA [] []
    rfl rfl rfl rfl

/-- C6: for every non-empty Report, the overview shows the
"No exploiters were enabled." text (and no exploitation-methods list) exactly
when `config_exploits` is empty, and otherwise the list with one entry per
configured exploit. -/
theorem c6_exploits_block (st : ComponentState) (r : ReportData)
    (h : st.report = some r) :
    (∃ s rec g,
      renderContent st =
        ReportContent.sections
          (generateReportOverviewSection r st.agents st.machines
            st.stolenCredentials st.configuredCredentials) s rec g) ∧
    (r.overview.config_exploits = [] →
      (generateReportOverviewSection r st.agents st.machines
          st.stolenCredentials st.configuredCredentials).exploits =
        ExploitsBlock.noExploitersText ∧
      ∀ l, (generateReportOverviewSection r st.agents st.machines
          st.stolenCredentials st.configuredCredentials).exploits ≠
        ExploitsBlock.exploitsList l) ∧
    (r.overview.config_exploits ≠ [] →
      (generateReportOverviewSection r st.agents st.machines
          st.stolenCredentials st.configuredCredentials).exploits =
        ExploitsBlock.exploitsList r.overview.config_exploits ∧
      ∀ l, (generateReportOverviewSection r st.agents st.machines
          st.stolenCredentials st.configuredCredentials).exploits =
          ExploitsBlock.exploitsList l →
        l.length = r.overview.config_exploits.length) := by
  refine ⟨⟨_, _, _, renderContent_loaded st r h⟩, ?_, ?_⟩
  · intro he
    have hx : (generateReportOverviewSection r st.agents st.machines
        st.stolenCredentials st.configuredCredentials).exploits =
        ExploitsBlock.noExploitersText := by
      simp [generateReportOverviewSection, he]
    exact ⟨hx, fun l hl => by rw [hx] at hl; exact ExploitsBlock.noConfusion hl⟩
  · intro hne
    have hpos : 0 < r.overview.config_exploits.length :=
      List.length_pos.mpr hne
    have hx : (generateReportOverviewSection r st.agents st.machines
        st.stolenCredentials st.configuredCredentials).exploits =
        ExploitsBlock.exploitsList r.overview.config_exploits := by
      simp [generateReportOverviewSection, hpos]
    refine ⟨hx, fun l hl => ?_⟩
    rw [hx] at hl
    cases hl
    rfl

/-- Witness for C6: `sampleReportA` has no configured exploiters, so the
overview shows the no-exploiters text. -/
theorem c6_exploits_block_witness :
    (generateReportOverviewSection sampleReportA
      (initialState (some sampleReportA)).agents
      (initialState (some sampleReportA)).machines
      (initialState (some sampleReportA)).stolenCredentials
      (initialState (some sampleReportA)).configuredCredentials).exploits =
      ExploitsBlock.noExploitersText :=
  ((c6_exploits_block (initialState (some sampleReportA)) sampleReportA
    rfl).2.1 rfl).1

/-- C7: outside the Zerologon special case, an Issue renders the fixed
placeholder remediation exactly when `remediation_suggestion` is absent or
undefined, and the suggestion markdown when it is present; the description is
computed independently, defaulting to empty when absent. -/
theorem c7_default_remediation_and_description (issue : Issue)
    (h : ¬ (issue.type = "ZerologonExploiter" ∧
        issue.password_restored = some false)) :
    (issue.remediation_suggestion = none →
      (generateIssue issue).remediation = Remediation.placeholder) ∧
    (∀ s, issue.remediation_suggestion = some s →
      (generateIssue issue).remediation = Remediation.markdown s) ∧
    ((generateIssue issue).description =
      match issue.description with
      | some s => Description.markdown s
      | none => Description.empty) ∧
    (∀ issue2 : Issue, issue2.description = issue.description →
      (generateIssue issue2).description =
        (generateIssue issue).description) := by
  refine ⟨?_, ?_, generateIssue_description issue, ?_⟩
  · intro hs
    rw [generateIssue_remediation, if_neg h, hs]
  · intro s hs
    rw [generateIssue_remediation, if_neg h, hs]
  · intro issue2 hd
    rw [generateIssue_description, generateIssue_description, hd]

/-- Witness for C7: the ordinary issue without a suggestion renders the
placeholder remediation. -/
theorem c7_default_remediation_and_description_witness :
    (generateIssue plainIssueA).remediation = Remediation.placeholder :=
  (c7_default_remediation_and_description plainIssueA
    (by simp [plainIssueA])).1 rfl

/-- C8: each of the four fetch completions writes only its own state slot,
leaving the other three slots and the report unchanged, and completions of
distinct fetches commute, so the final state does not depend on the order in
which the four complete. -/
theorem c8_fetch_completions_disjoint_slots :
    (∀ (st : ComponentState) (c : List CredentialRow),
      (applyFetchCompletion st (FetchEvent.stolenDone c)).stolenCredentials
          = c ∧
      (applyFetchCompletion st
          (FetchEvent.stolenDone c)).configuredCredentials
          = st.configuredCredentials ∧
      (applyFetchCompletion st (FetchEvent.stolenDone c)).agents
          = st.agents ∧
      (applyFetchCompletion st (FetchEvent.stolenDone c)).machines
          = st.machines ∧
      (applyFetchCompletion st (FetchEvent.stolenDone c)).report
          = st.report) ∧
    (∀ (st : ComponentState) (c : List CredentialRow),
      (applyFetchCompletion st
          (FetchEvent.configuredDone c)).configuredCredentials = c ∧
      (applyFetchCompletion st
          (FetchEvent.configuredDone c)).stolenCredentials
          = st.stolenCredentials ∧
      (applyFetchCompletion st (FetchEvent.configuredDone c)).agents
          = st.agents ∧
      (applyFetchCompletion st (FetchEvent.configuredDone c)).machines
          = st.machines ∧
      (applyFetchCompletion st (FetchEvent.configuredDone c)).report
          = st.report) ∧
    (∀ (st : ComponentState) (a : List Agent),
      (applyFetchCompletion st (FetchEvent.agentsDone a)).agents = a ∧
      (applyFetchCompletion st (FetchEvent.agentsDone a)).stolenCredentials
          = st.stolenCredentials ∧
      (applyFetchCompletion st
          (FetchEvent.agentsDone a)).configuredCredentials
          = st.configuredCredentials ∧
      (applyFetchCompletion st (FetchEvent.agentsDone a)).machines
          = st.machines ∧
      (applyFetchCompletion st (FetchEvent.agentsDone a)).report
          = st.report) ∧
    (∀ (st : ComponentState) (m : List Machine),
      (applyFetchCompletion st (FetchEvent.machinesDone m)).machines = m ∧
      (applyFetchCompletion st
          (FetchEvent.machinesDone m)).stolenCredentials
          = st.stolenCredentials ∧
      (applyFetchCompletion st
          (FetchEvent.machinesDone m)).configuredCredentials
          = st.configuredCredentials ∧
      (applyFetchCompletion st (FetchEvent.machinesDone m)).agents
          = st.agents ∧
      (applyFetchCompletion st (FetchEvent.machinesDone m)).report
          = st.report) ∧
    (∀ (st : ComponentState) (e1 e2 : FetchEvent),
      e1.kind ≠ e2.kind →
      applyFetchCompletion (applyFetchCompletion st e1) e2 =
        applyFetchCompletion (applyFetchCompletion st e2) e1) := by
  refine ⟨fun st c => ⟨rfl, rfl, rfl, rfl, rfl⟩,
    fun st c => ⟨rfl, rfl, rfl, rfl, rfl⟩,
    fun st a => ⟨rfl, rfl, rfl, rfl, rfl⟩,
    fun st m => ⟨rfl, rfl, rfl, rfl, rfl⟩, ?_⟩
  intro st e1 e2 hk
  cases e1 <;> cases e2 <;> first
    | rfl
    | exact absurd rfl hk

/-- Witness for C8: a stolen-credentials completion and an agents completion
commute on a concrete state. -/
theorem c8_fetch_completions_disjoint_slots_witness :
    applyFetchCompletion
        (applyFetchCompletion (initialState none)
          (FetchEvent.stolenDone [⟨"user:pass"⟩]))
        (FetchEvent.agentsDone [agentA]) =
      applyFetchCompletion
        (applyFetchCompletion (initialState none)
          (FetchEvent.agentsDone [agentA]))
        (FetchEvent.stolenDone [⟨"user:pass"⟩]) :=
  c8_fetch_completions_disjoint_slots.2.2.2.2 (initialState none)
    (FetchEvent.stolenDone [⟨"user:pass"⟩])
    (FetchEvent.agentsDone [agentA]) (by decide)

/-- C9: a rejected fetch promise is not caught (the rejection escapes to the
host runtime), runs no state update — from the initial state the four slots
stay at their initial empty values — and the component then renders those
sections from the empty slots (empty credentials tables, empty manual-hostname
list); the render content is always the loader or the plain sections, there
being no error form at all. -/
theorem c9_rejected_fetch_leaves_slot_empty (report : Report)
    (k : FetchKind) :
    (processFetchOutcome (initialState report)
        (FetchOutcome.rejected k)).1 = initialState report ∧
    (processFetchOutcome (initialState report)
        (FetchOutcome.rejected k)).2 = true ∧
    (initialState report).stolenCredentials = [] ∧
    (initialState report).configuredCredentials = [] ∧
    (initialState report).agents = [] ∧
    (initialState report).machines = [] ∧
    (∀ rd : ReportData, report = some rd →
      (generateReportGlanceSection rd
        (initialState report).stolenCredentials).stolenTable = [] ∧
      (generateReportOverviewSection rd (initialState report).agents
        (initialState report).machines
        (initialState report).stolenCredentials
        (initialState report).configuredCredentials).stolenCreds = [] ∧
      (generateReportOverviewSection rd (initialState report).agents
        (initialState report).machines
        (initialState report).stolenCredentials
        (initialState report).configuredCredentials).configuredCreds = [] ∧
      (generateReportOverviewSection rd (initialState report).agents
        (initialState report).machines
        (initialState report).stolenCredentials
        (initialState report).configuredCredentials).manualHostnames = []) ∧
    (∀ st : ComponentState,
      renderContent st = ReportContent.loader ∨
      ∃ o s rec g,
        renderContent st = ReportContent.sections o s rec g) := by
  refine ⟨rfl, rfl, rfl, rfl, rfl, rfl, ?_, ?_⟩
  · intro rd _
    refine ⟨rfl, rfl, rfl, ?_⟩
    simp [generateReportOverviewSection, manualMonkeyHostnames,
      getManuallyStartedAgents, initialState, jsSetDedup, jsSetDedupAux]
  · intro st
    cases hst : st.report with
    | none =>
      left
      exact renderContent_none st hst
    | some r =>
      right
      exact ⟨_, _, _, _, renderContent_loaded st r hst⟩

/-- Witness for C9 at a concrete populated report and the stolen-credentials
fetch. -/
theorem c9_rejected_fetch_leaves_slot_empty_witness :
    (processFetchOutcome (initialState (some sampleReportA))
        (FetchOutcome.rejected FetchKind.stolen)).1 =
      initialState (some sampleReportA) ∧
    (processFetchOutcome (initialState (some sampleReportA))
        (FetchOutcome.rejected FetchKind.stolen)).2 = true ∧
    (generateReportGlanceSection sampleReportA
      (initialState (some sampleReportA)).stolenCredentials).stolenTable
      = [] :=
  ⟨(c9_rejected_fetch_leaves_slot_empty (some sampleReportA)
      FetchKind.stolen).1,
    (c9_rejected_fetch_leaves_slot_empty (some sampleReportA)
      FetchKind.stolen).2.1,
    ((c9_rejected_fetch_leaves_slot_empty (some sampleReportA)
      FetchKind.stolen).2.2.2.2.2.2.1 sampleReportA rfl).1⟩

/-- C10: the manual-start hostname list deduplicates by hostname alone: two
manually started agents resolving to two distinct machine records with equal
hostnames collapse into a single entry. -/
theorem c10_dedup_by_hostname_alone (a1 a2 : Agent) (m1 m2 : Machine)
    (r : ReportData) (stolen configured : List CredentialRow)
    (h1 : a1.manual = true) (h2 : a2.manual = true)
    (hm1 : a1.machine_id = m1.id) (hm2 : a2.machine_id = m2.id)
    (hne : m1.id ≠ m2.id) (hh : m1.hostname = m2.hostname) :
    (generateReportOverviewSection r [a1, a2] [m1, m2] stolen
        configured).manualHostnames = [m1.hostname] := by
  have hb : (m1.id == m2.id) = false := beq_eq_false_iff_ne.mpr hne
  simp [generateReportOverviewSection, manualMonkeyHostnames,
    getManuallyStartedAgents, getMachineByAgent, getMachineHostname,
    jsSetDedup, jsSetDedupAux, h1, h2, hm1, hm2, hb, hh, List.find?]

/-- Witness for C10: two manually started agents on two distinct machines that
share the hostname `host-a` yield one entry. -/
theorem c10_dedup_by_hostname_alone_witness :
    (generateReportOverviewSection sampleReportA
      [agentA, { machine_id := 2, manual := true }]
      [machineA, { id := 2, hostname := "host-a", ips := ["10.0.0.6"] }]
      [] []).manualHostnames = [machineA.hostname] :=
  c10_dedup_by_hostname_alone agentA { machine_id := 2, manual := true }
    machineA { id := 2, hostname := "host-a", ips := ["10.0.0.6"] }
    sampleReportA [] [] rfl rfl rfl rfl (by decide) rfl

end SecurityReport
